import Mathlib

/-!
Shallow embedding of the Local Library CRUD application
(src/app.js, src/controllers/{author,book,bookinstance}Controller.js).

Documents are records, the Mongo collections are lists inside a `Store`,
and each Express handler becomes a function from the store and the request
data to the new store together with the list of response actions it emits
(renders, redirects, HTTP errors).  Mongoose calls are embedded as list
operations: `findById` is `List.find?`, `save` appends, `findByIdAndRemove`
filters, `findByIdAndUpdate` maps a replacement over the list and returns
the old document.  A mongoose query that the source never awaits is embedded
by the `JsValue.query` constructor: a truthy object that is not null and is
not the query result.
-/

namespace Library

/-- Modelled from the spec: `models/author.js` is not under `src/`; the spec
data model gives an Author the attributes first_name, family_name and the
optional dates, each document carrying its own id. -/
structure Author where
  id : String
  first_name : String
  family_name : String
  date_of_birth : Option String
  date_of_death : Option String
deriving DecidableEq

/-- Modelled from the spec: `models/genre.js` is not under `src/`; a Genre has
a name and its own id. -/
structure Genre where
  id : String
  name : String
deriving DecidableEq

/-- Modelled from the spec: `models/book.js` is not under `src/`; a Book has a
title, an author reference, a summary, an isbn and a list of genre
references. -/
structure Book where
  id : String
  title : String
  author : String
  summary : String
  isbn : String
  genre : List String
deriving DecidableEq

/-- Modelled from the spec: `models/bookinstance.js` is not under `src/`; a
BookInstance has a book reference, an imprint, a status and an optional due
date. -/
structure BookInstance where
  id : String
  book : String
  imprint : String
  status : String
  due_back : Option String
deriving DecidableEq

/-- The document database: one collection per entity (spec section 2,
"each entity maps to one collection"). -/
structure Store where
  authors : List Author
  genres : List Genre
  books : List Book
  bookinstances : List BookInstance
deriving DecidableEq

/-- A response action emitted by a handler: render a view (with the list of
validation error messages passed to it), redirect (`none` stands for the JS
undefined value being passed as the target), or forward an HTTP error with a
status code. -/
inductive Action where
  | render (view : String) (errors : List String)
  | redirect (target : Option String)
  | error (status : Nat) (message : String)
deriving DecidableEq

/-- A value bound by a handler from a mongoose call: null, a document, or an
un-awaited Query object (a truthy JS object, never null). -/
inductive JsValue (A : Type) where
  | null
  | value (a : A)
  | query
deriving DecidableEq

/-- The JS `== null` test on such a binding. -/
def JsValue.isNull {A : Type} : JsValue A → Bool
  | .null => true
  | _ => false

/-- Modelled from the spec: the url virtuals live in `models/*.js`, outside
`src/`; section 6 of the spec places detail pages under
`/catalog/<entity>/<id>`. -/
def authorUrl (a : Author) : String := "/catalog/author/" ++ a.id

/-- Modelled from the spec: Genre detail page url, see `authorUrl`. -/
def genreUrl (g : Genre) : String := "/catalog/genre/" ++ g.id

/-- Modelled from the spec: Book detail page url, see `authorUrl`. -/
def bookUrl (b : Book) : String := "/catalog/book/" ++ b.id

/-- Modelled from the spec: BookInstance detail page url, see `authorUrl`. -/
def bookinstanceUrl (bi : BookInstance) : String := "/catalog/bookinstance/" ++ bi.id

/-- The validator escape sanitizer applied to one character: the HTML-special
characters are replaced by entities.  (The backquote character, which the
library also escapes, is elided here; no claim exercises it.) -/
def escapeChar (c : Char) : String :=
  if c = '&' then "&amp;"
  else if c = '<' then "&lt;"
  else if c = '>' then "&gt;"
  else if c = '"' then "&quot;"
  else if c = Char.ofNat 39 then "&#x27;"
  else if c = '/' then "&#x2F;"
  else if c = '\\' then "&#x5C;"
  else String.singleton c

/-- The validator `escape()` sanitizer. -/
def escapeHtml (s : String) : String :=
  String.join (s.data.map escapeChar)

/-- The validator `trim()` sanitizer (strip leading and trailing
whitespace), expressed over the character list so that proofs can evaluate
it. -/
def trimChars (s : String) : String :=
  ((s.data.dropWhile Char.isWhitespace).reverse.dropWhile Char.isWhitespace).reverse.asString

/-- The `trim().escape()` sanitizer chain the controllers apply to every
text field before persisting it. -/
def sanitize (s : String) : String := escapeHtml (trimChars s)

/-- The validator `isAlphanumeric()` check (ASCII letters and digits, and the
empty string fails). -/
def isAlphanumeric (s : String) : Bool :=
  s.length > 0 && s.data.all Char.isAlphanum

/-- Modelled from the spec: the ISO-8601 date check comes from the
third-party validator library, not the repository; the spec only asks for an
ISO-8601 date rule, embedded here as the YYYY-MM-DD shape. -/
def isISO8601 (s : String) : Bool :=
  match s.split (fun c => c == '-') with
  | [y, m, d] =>
      y.length = 4 && y.data.all Char.isDigit &&
      m.length = 2 && m.data.all Char.isDigit &&
      d.length = 2 && d.data.all Char.isDigit
  | _ => false

/-- An `optional({ checkFalsy: true }).isISO8601()` rule: a missing or empty
(falsy) field is skipped, otherwise the date must be ISO-8601. -/
def optionalDateErrors (field : Option String) (message : String) : List String :=
  match field with
  | none => []
  | some s => if s.isEmpty then [] else if isISO8601 s then [] else [message]

/-- The `toDate()` sanitizer: a missing or empty field becomes null; the
parsed date is kept as its ISO string. -/
def sanitizeDate (field : Option String) : Option String :=
  match field with
  | none => none
  | some s => if s.isEmpty then none else some s

/-- The genre field of a book form body, before the array-normalizing
middleware runs (bookController.js lines 80-88 and 233-241): it may be
absent, a single value, or already an array. -/
inductive GenreField where
  | absent
  | single (value : String)
  | array (values : List String)
deriving DecidableEq

/-- The array-normalizing middleware of `book_create_post` and
`book_update_post`: a missing genre becomes the empty array and a lone value
becomes a one-element array (bookController.js lines 80-88). -/
def normalizeGenreField : GenreField → List String
  | .absent => []
  | .single value => [value]
  | .array values => values

/-- The body of a book create or update form. -/
structure BookForm where
  title : String
  author : String
  summary : String
  isbn : String
  genre : GenreField
deriving DecidableEq

/-- The body of an author create or update form. -/
structure AuthorForm where
  first_name : String
  family_name : String
  date_of_birth : Option String
  date_of_death : Option String
deriving DecidableEq

/-- The body of a bookinstance create or update form. -/
structure BookInstanceForm where
  book : String
  imprint : String
  status : String
  due_back : Option String
deriving DecidableEq

/-- The validation chain of `genre_create_post` and `genre_update_post`
(app.js genre controller): the name must be non-empty. -/
def genreValidationErrors (name : String) : List String :=
  if 1 ≤ name.length then [] else ["Genre name required"]

/-- The validation chains of `book_create_post` and `book_update_post`
(bookController.js lines 91-94): title, author, summary and isbn must be
non-empty. -/
def bookValidationErrors (f : BookForm) : List String :=
  (if 1 ≤ f.title.length then [] else ["Title must not be empty."]) ++
  (if 1 ≤ f.author.length then [] else ["Author must not be empty."]) ++
  (if 1 ≤ f.summary.length then [] else ["Summary must not be empty."]) ++
  (if 1 ≤ f.isbn.length then [] else ["ISBN must not be empty"])

/-- The validation chains of `author_create_post` and `author_update_post`
(authorController.js lines 52-57): both names non-empty and, after the
in-chain trim, alphanumeric; the dates optional ISO-8601. -/
def authorValidationErrors (f : AuthorForm) : List String :=
  (if 1 ≤ f.first_name.length then [] else ["First name must be specified."]) ++
  (if isAlphanumeric (trimChars f.first_name) then [] else ["First name has non-alphanumeric characters."]) ++
  (if 1 ≤ f.family_name.length then [] else ["Family name must be specified."]) ++
  (if isAlphanumeric (trimChars f.family_name) then [] else ["Family name has non-alphanumeric characters."]) ++
  optionalDateErrors f.date_of_birth "Invalid date of birth" ++
  optionalDateErrors f.date_of_death "Invalid date of death"

/-- The validation chains of `bookinstance_create_post` and
`bookinstance_update_post` (bookinstanceController.js lines 57-59): book and
imprint non-empty, due_back optional ISO-8601. -/
def bookinstanceValidationErrors (f : BookInstanceForm) : List String :=
  (if 1 ≤ f.book.length then [] else ["Book must be specified"]) ++
  (if 1 ≤ f.imprint.length then [] else ["Imprint must be specified"]) ++
  optionalDateErrors f.due_back "Invalid date"

/-! ## Genre handlers (the genre controller concatenated into src/app.js) -/

/-- `genre_list`: `Genre.find().sort([[name, ascending]])`, the list handed
to the genre_list view. -/
def genre_list (s : Store) : List Genre :=
  List.insertionSort (fun a b => a.name ≤ b.name) s.genres

/-- `genre_detail` (app.js genre controller): 404 when `findById` comes back
null, otherwise render the detail view. -/
def genre_detail (s : Store) (paramsId : String) : List Action :=
  match s.genres.find? (fun g => g.id = paramsId) with
  | none => [.error 404 "Genre not found"]
  | some _ => [.render "genre_detail" []]

/-- `genre_create_post` (app.js genre controller, lines 112-155): validate
the name, build the sanitized genre, re-render on errors; otherwise redirect
to an already-stored genre of the same name, or save and redirect.
`freshId` is the object id mongoose mints for the new document. -/
def genre_create_post (s : Store) (freshId : String) (name : String) :
    Store × List Action :=
  let errors := genreValidationErrors name
  let genre : Genre := { id := freshId, name := sanitize name }
  if !errors.isEmpty then
    (s, [.render "genre_form" errors])
  else
    match s.genres.find? (fun g => g.name = sanitize name) with
    | some found_genre => (s, [.redirect (some (genreUrl found_genre))])
    | none => ({ s with genres := s.genres ++ [genre] },
               [.redirect (some (genreUrl genre))])

/-- `genre_delete_get` (app.js genre controller, lines 158-176): a missing
genre triggers a redirect to the list, but the handler does not return and
still renders the confirmation view. -/
def genre_delete_get (s : Store) (paramsId : String) : List Action :=
  let genre := s.genres.find? (fun g => g.id = paramsId)
  (if genre = none then [Action.redirect (some "/catalog/genres")] else []) ++
  [.render "genre_delete" []]

/-- `genre_delete_post` (app.js genre controller, lines 179-204): the
dependent-book check queries the URL id, while `findByIdAndRemove` receives
the form-body id. -/
def genre_delete_post (s : Store) (paramsId : String) (bodyId : String) :
    Store × List Action :=
  let _genre := s.genres.find? (fun g => g.id = paramsId)
  let genre_books := s.books.filter (fun b => paramsId ∈ b.genre)
  if genre_books.length > 0 then
    (s, [.render "genre_delete" []])
  else
    ({ s with genres := s.genres.filter (fun g => g.id ≠ bodyId) },
     [.redirect (some "/catalog/genres")])

/-- `genre_update_post` (app.js genre controller, lines 225-264): re-render
on validation errors; otherwise overwrite the record by the URL id and
redirect to the url of the document `findByIdAndUpdate` returns (the
pre-update one; when no genre matches, reading `.url` on null throws and the
error is forwarded). -/
def genre_update_post (s : Store) (paramsId : String) (name : String) :
    Store × List Action :=
  let errors := genreValidationErrors name
  let genre : Genre := { id := paramsId, name := sanitize name }
  if !errors.isEmpty then
    (s, [.render "genre_form" errors])
  else
    match s.genres.find? (fun g => g.id = paramsId) with
    | some thegenre =>
        ({ s with genres := s.genres.map (fun g => if g.id = paramsId then genre else g) },
         [.redirect (some (genreUrl thegenre))])
    | none => (s, [.error 500 "TypeError"])

/-! ## Author handlers (src/controllers/authorController.js) -/

/-- `author_list` (lines 8-19): `Author.find().sort([[family_name,
ascending]])`, the list handed to the author_list view. -/
def author_list (s : Store) : List Author :=
  List.insertionSort (fun a b => a.family_name ≤ b.family_name) s.authors

/-- `author_detail` (lines 22-41): both queries are awaited; 404 when the
author is null, otherwise render. -/
def author_detail (s : Store) (paramsId : String) : List Action :=
  match s.authors.find? (fun a => a.id = paramsId) with
  | none => [.error 404 "Author not found"]
  | some _ => [.render "author_detail" []]

/-- `author_create_post` (lines 49-92): re-render on validation errors,
otherwise save the sanitized author and redirect to its url. -/
def author_create_post (s : Store) (freshId : String) (f : AuthorForm) :
    Store × List Action :=
  let errors := authorValidationErrors f
  if !errors.isEmpty then
    (s, [.render "author_form" errors])
  else
    let author : Author :=
      { id := freshId,
        first_name := sanitize f.first_name,
        family_name := sanitize f.family_name,
        date_of_birth := sanitizeDate f.date_of_birth,
        date_of_death := sanitizeDate f.date_of_death }
    ({ s with authors := s.authors ++ [author] },
     [.redirect (some (authorUrl author))])

/-- `author_delete_get` (lines 95-112): a missing author triggers a redirect
to the list, but the handler does not return and still renders the
confirmation view. -/
def author_delete_get (s : Store) (paramsId : String) : List Action :=
  let author := s.authors.find? (fun a => a.id = paramsId)
  (if author = none then [Action.redirect (some "/catalog/authors")] else []) ++
  [.render "author_delete" []]

/-- `author_update_post` (lines 159-207): re-render on validation errors.
In the valid branch, line 200 calls `Author.findByIdAndUpdate` without
`await`: the query is never executed, so the store is unchanged, and
`theauthor` is the query object, whose `url` property is the JS undefined
value handed to `res.redirect`. -/
def author_update_post (s : Store) (paramsId : String) (f : AuthorForm) :
    Store × List Action :=
  let errors := authorValidationErrors f
  let _author : Author :=
    { id := paramsId,
      first_name := sanitize f.first_name,
      family_name := sanitize f.family_name,
      date_of_birth := sanitizeDate f.date_of_birth,
      date_of_death := sanitizeDate f.date_of_death }
  if !errors.isEmpty then
    (s, [.render "author_form" errors])
  else
    let theauthor : JsValue Author := .query
    let _ := theauthor
    (s, [.redirect none])

/-! ## Book handlers (src/controllers/bookController.js) -/

/-- `book_list` (lines 27-37): `Book.find({}, title author).populate(author)`
with no sort; the stored order is handed to the book_list view. -/
def book_list (s : Store) : List Book :=
  s.books

/-- `book_detail` (lines 40-60): 404 when the book is null, otherwise
render. -/
def book_detail (s : Store) (paramsId : String) : List Action :=
  match s.books.find? (fun b => b.id = paramsId) with
  | none => [.error 404 "Book not found"]
  | some _ => [.render "book_detail" []]

/-- The `new Book({...})` construction shared by `book_create_post`
(bookController.js lines 107-114) and `book_update_post` (lines 263-271):
every text field trimmed and escaped, the genre field the sanitized
normalized array, and the given id (`freshId` for create, the URL id for
update). -/
def bookFromForm (bookId : String) (f : BookForm) : Book :=
  { id := bookId,
    title := sanitize f.title,
    author := sanitize f.author,
    summary := sanitize f.summary,
    isbn := sanitize f.isbn,
    genre := (normalizeGenreField f.genre).map sanitize }

/-- `book_create_post` (lines 78-145): normalize the genre field to an
array, validate, build the sanitized book; re-render the form with the
errors, or save the book and redirect to its url. -/
def book_create_post (s : Store) (freshId : String) (f : BookForm) :
    Store × List Action :=
  let errors := bookValidationErrors f
  let book : Book := bookFromForm freshId f
  if !errors.isEmpty then
    (s, [.render "book_form" errors])
  else
    ({ s with books := s.books ++ [book] },
     [.redirect (some (bookUrl book))])

/-- `book_delete_get` (lines 148-164): a missing book triggers a redirect to
the list, but the handler does not return and still renders the confirmation
view. -/
def book_delete_get (s : Store) (paramsId : String) : List Action :=
  let book := s.books.find? (fun b => b.id = paramsId)
  (if book = none then [Action.redirect (some "/catalog/books")] else []) ++
  [.render "book_delete" []]

/-- `book_delete_post` (lines 167-195): 404 when the book is null; otherwise
the body (lines 181-190) marks the checked genres and renders the Update
Book form — it never queries BookInstance, never removes the book and never
redirects. -/
def book_delete_post (s : Store) (paramsId : String) : Store × List Action :=
  match s.books.find? (fun b => b.id = paramsId) with
  | none => (s, [.error 404 "Book not found"])
  | some _book => (s, [.render "book_form" []])

/-- `book_update_post` (lines 230-299): normalize the genre field, validate,
build the sanitized book carrying the URL id; re-render with the errors, or
overwrite the record by the URL id and redirect to the url of the document
`findByIdAndUpdate` returns (the pre-update one; when no book matches,
reading `.url` on null throws and the error is forwarded). -/
def book_update_post (s : Store) (paramsId : String) (f : BookForm) :
    Store × List Action :=
  let errors := bookValidationErrors f
  let book : Book := bookFromForm paramsId f
  if !errors.isEmpty then
    (s, [.render "book_form" errors])
  else
    match s.books.find? (fun b => b.id = paramsId) with
    | some thebook =>
        ({ s with books := s.books.map (fun b => if b.id = paramsId then book else b) },
         [.redirect (some (bookUrl thebook))])
    | none => (s, [.error 500 "TypeError"])

/-! ## BookInstance handlers (src/controllers/bookinstanceController.js) -/

/-- `bookinstance_list` (lines 9-19): `BookInstance.find().populate(book)`
with no sort; the stored order is handed to the view. -/
def bookinstance_list (s : Store) : List BookInstance :=
  s.bookinstances

/-- `bookinstance_detail` (lines 22-38): line 25 lacks `await`, so the
binding holds the un-awaited query object; the `== null` 404 guard can never
fire and the handler always renders. -/
def bookinstance_detail (s : Store) (paramsId : String) : List Action :=
  let bookinstance : JsValue BookInstance := .query
  if bookinstance.isNull then
    [.error 404 "Book copy not found"]
  else
    [.render "bookinstance_detail" []]

/-- `bookinstance_create_post` (lines 54-99): re-render on validation
errors, otherwise save the sanitized bookinstance and redirect to its
url. -/
def bookinstance_create_post (s : Store) (freshId : String)
    (f : BookInstanceForm) : Store × List Action :=
  let errors := bookinstanceValidationErrors f
  let bookinstance : BookInstance :=
    { id := freshId,
      book := sanitize f.book,
      imprint := sanitize f.imprint,
      status := sanitize f.status,
      due_back := sanitizeDate f.due_back }
  if !errors.isEmpty then
    (s, [.render "bookinstance_form" errors])
  else
    ({ s with bookinstances := s.bookinstances ++ [bookinstance] },
     [.redirect (some (bookinstanceUrl bookinstance))])

/-- `bookinstance_delete_get` (lines 104-118): a missing bookinstance
triggers a redirect to the list, but the handler does not return and still
renders the confirmation view. -/
def bookinstance_delete_get (s : Store) (paramsId : String) : List Action :=
  let bookinstance := s.bookinstances.find? (fun x => x.id = paramsId)
  (if bookinstance = none then [Action.redirect (some "/catalog/bookinstances")] else []) ++
  [.render "bookinstance_delete" []]

/-- `bookinstance_update_post` (lines 157-205): re-render on validation
errors, otherwise overwrite the record by the URL id and redirect to the url
of the document `findByIdAndUpdate` returns. -/
def bookinstance_update_post (s : Store) (paramsId : String)
    (f : BookInstanceForm) : Store × List Action :=
  let errors := bookinstanceValidationErrors f
  let bookinstance : BookInstance :=
    { id := paramsId,
      book := sanitize f.book,
      imprint := sanitize f.imprint,
      status := sanitize f.status,
      due_back := sanitizeDate f.due_back }
  if !errors.isEmpty then
    (s, [.render "bookinstance_form" errors])
  else
    match s.bookinstances.find? (fun x => x.id = paramsId) with
    | some thebookinstance =>
        ({ s with bookinstances :=
             s.bookinstances.map (fun x => if x.id = paramsId then bookinstance else x) },
         [.redirect (some (bookinstanceUrl thebookinstance))])
    | none => (s, [.error 500 "TypeError"])

/-! ## Concrete fixtures used by witnesses and counterexamples -/

/-- A stored author. -/
def authorA : Author :=
  { id := "a1", first_name := "Jane", family_name := "Doe",
    date_of_birth := none, date_of_death := none }

/-- A stored genre no book references. -/
def genreG1 : Genre := { id := "g1", name := "Fantasy" }

/-- A stored genre referenced by `bookB1`. -/
def genreG2 : Genre := { id := "g2", name := "Horror" }

/-- A stored book referencing `genreG2`; its title sorts after `bookB2`. -/
def bookB1 : Book :=
  { id := "b1", title := "B title", author := "a1", summary := "sum",
    isbn := "isbn1", genre := ["g2"] }

/-- A stored book with no genres; its title sorts before `bookB1`. -/
def bookB2 : Book :=
  { id := "b2", title := "A title", author := "a1", summary := "sum",
    isbn := "isbn2", genre := [] }

/-- A small populated store: one author, two genres, two books (stored in
reverse title order), no book instances. -/
def sampleStore : Store :=
  { authors := [authorA], genres := [genreG1, genreG2],
    books := [bookB1, bookB2], bookinstances := [] }

/-- The empty store. -/
def emptyStore : Store :=
  { authors := [], genres := [], books := [], bookinstances := [] }

/-- A book form that validates and selects no genre. -/
def noGenreBookForm : BookForm :=
  { title := "Title", author := "a1", summary := "sum", isbn := "isbn9",
    genre := GenreField.absent }

/-! ## Claim theorems -/

/-- C1: for a Book delete-POST on an existing Book the source handler
(bookController.js lines 167-195) leaves the store unchanged and renders the
Update Book form; it never checks BookInstances, never removes the Book and
never redirects. -/
theorem book_delete_post_never_removes (s : Store) (paramsId : String)
    (b : Book) (hb : s.books.find? (fun x => x.id = paramsId) = some b) :
    book_delete_post s paramsId = (s, [Action.render "book_form" []]) := by
  simp [book_delete_post, hb]

/-- C1 witness: the delete-POST on stored book b1 (which has no book
instances) keeps the store intact and renders the update form. -/
theorem book_delete_post_never_removes_witness :
    sampleStore.books.find? (fun x => x.id = "b1") = some bookB1 ∧
    book_delete_post sampleStore "b1" = (sampleStore, [Action.render "book_form" []]) :=
  ⟨by decide, book_delete_post_never_removes sampleStore "b1" bookB1 (by decide)⟩

/-- C2: detail on an absent id yields a 404 for Author, Book and Genre, but
`bookinstance_detail` never 404s: the un-awaited query of
bookinstanceController.js line 25 is not null, so the handler renders the
detail view for every id, present or not. -/
theorem detail_absent_statuses (s : Store) (paramsId : String)
    (ha : s.authors.find? (fun a => a.id = paramsId) = none)
    (hb : s.books.find? (fun b => b.id = paramsId) = none)
    (hg : s.genres.find? (fun g => g.id = paramsId) = none) :
    author_detail s paramsId = [Action.error 404 "Author not found"] ∧
    book_detail s paramsId = [Action.error 404 "Book not found"] ∧
    genre_detail s paramsId = [Action.error 404 "Genre not found"] ∧
    bookinstance_detail s paramsId = [Action.render "bookinstance_detail" []] := by
  refine ⟨?_, ?_, ?_, rfl⟩ <;> simp [author_detail, book_detail, genre_detail, ha, hb, hg]

/-- C2 witness: on the empty store, a nonexistent id 404s for Author, Book
and Genre while the BookInstance detail still renders. -/
theorem detail_absent_statuses_witness :
    emptyStore.authors.find? (fun a => a.id = "zz") = none ∧
    emptyStore.books.find? (fun b => b.id = "zz") = none ∧
    emptyStore.genres.find? (fun g => g.id = "zz") = none ∧
    (author_detail emptyStore "zz" = [Action.error 404 "Author not found"] ∧
     book_detail emptyStore "zz" = [Action.error 404 "Book not found"] ∧
     genre_detail emptyStore "zz" = [Action.error 404 "Genre not found"] ∧
     bookinstance_detail emptyStore "zz" = [Action.render "bookinstance_detail" []]) :=
  ⟨by decide, by decide, by decide,
   detail_absent_statuses emptyStore "zz" (by decide) (by decide) (by decide)⟩

/-- C9: a delete-GET on an id with no matching stored entity issues a
redirect to the entity list page and, the handler not returning, still
renders the delete-confirmation view in the same request — for all four
entities. -/
theorem delete_get_absent_redirects_then_renders (s : Store) (paramsId : String)
    (hb : s.books.find? (fun b => b.id = paramsId) = none)
    (ha : s.authors.find? (fun a => a.id = paramsId) = none)
    (hg : s.genres.find? (fun g => g.id = paramsId) = none)
    (hbi : s.bookinstances.find? (fun x => x.id = paramsId) = none) :
    book_delete_get s paramsId =
      [Action.redirect (some "/catalog/books"), Action.render "book_delete" []] ∧
    author_delete_get s paramsId =
      [Action.redirect (some "/catalog/authors"), Action.render "author_delete" []] ∧
    genre_delete_get s paramsId =
      [Action.redirect (some "/catalog/genres"), Action.render "genre_delete" []] ∧
    bookinstance_delete_get s paramsId =
      [Action.redirect (some "/catalog/bookinstances"), Action.render "bookinstance_delete" []] := by
  refine ⟨?_, ?_, ?_, ?_⟩ <;>
    simp [book_delete_get, author_delete_get, genre_delete_get,
          bookinstance_delete_get, hb, ha, hg, hbi]

/-- C9 witness: on the empty store every delete-GET both redirects to the
list page and renders the confirmation view. -/
theorem delete_get_absent_redirects_then_renders_witness :
    emptyStore.books.find? (fun b => b.id = "zz") = none ∧
    emptyStore.authors.find? (fun a => a.id = "zz") = none ∧
    emptyStore.genres.find? (fun g => g.id = "zz") = none ∧
    emptyStore.bookinstances.find? (fun x => x.id = "zz") = none ∧
    (book_delete_get emptyStore "zz" =
      [Action.redirect (some "/catalog/books"), Action.render "book_delete" []] ∧
     author_delete_get emptyStore "zz" =
      [Action.redirect (some "/catalog/authors"), Action.render "author_delete" []] ∧
     genre_delete_get emptyStore "zz" =
      [Action.redirect (some "/catalog/genres"), Action.render "genre_delete" []] ∧
     bookinstance_delete_get emptyStore "zz" =
      [Action.redirect (some "/catalog/bookinstances"), Action.render "bookinstance_delete" []]) :=
  ⟨by decide, by decide, by decide, by decide,
   delete_get_absent_redirects_then_renders emptyStore "zz"
     (by decide) (by decide) (by decide) (by decide)⟩

/-- C10: the genre field of a Book create-POST is normalized to an array
before validation (absent becomes the empty list, a single value a
one-element list), and a valid submission persists the book whose genre
field is the normalized, sanitized list — so a Book can be created with no
genre selected and the persisted genre field is always a list. -/
theorem book_create_post_genre_normalized (s : Store) (freshId v : String)
    (f : BookForm) (hv : (bookValidationErrors f).isEmpty = true) :
    normalizeGenreField GenreField.absent = [] ∧
    normalizeGenreField (GenreField.single v) = [v] ∧
    (book_create_post s freshId f).1.books = s.books ++ [bookFromForm freshId f] ∧
    (bookFromForm freshId f).genre = (normalizeGenreField f.genre).map sanitize ∧
    (book_create_post s freshId f).2 =
      [Action.redirect (some ("/catalog/book/" ++ freshId))] := by
  refine ⟨rfl, rfl, ?_, rfl, ?_⟩ <;>
    simp [book_create_post, hv, bookUrl, bookFromForm]

/-- C10 witness: a valid book form with the genre field absent is persisted
with the empty genre list. -/
theorem book_create_post_genre_normalized_witness :
    (bookValidationErrors noGenreBookForm).isEmpty = true ∧
    (bookFromForm "b9" noGenreBookForm).genre = [] ∧
    (book_create_post sampleStore "b9" noGenreBookForm).1.books =
      sampleStore.books ++ [bookFromForm "b9" noGenreBookForm] :=
  ⟨by decide, by decide,
   (book_create_post_genre_normalized sampleStore "b9" "g1" noGenreBookForm (by decide)).2.2.1⟩

/-- A book form whose title is empty (all other fields valid). -/
def emptyTitleBookForm : BookForm :=
  { title := "", author := "a1", summary := "sum", isbn := "isbn9",
    genre := GenreField.absent }

/-- An author form whose first name is empty. -/
def emptyFirstNameAuthorForm : AuthorForm :=
  { first_name := "", family_name := "Doe",
    date_of_birth := none, date_of_death := none }

/-- A bookinstance form whose book reference is empty. -/
def emptyBookBookInstanceForm : BookInstanceForm :=
  { book := "", imprint := "imp", status := "Available", due_back := none }

/-- A valid author form. -/
def validAuthorForm : AuthorForm :=
  { first_name := "John", family_name := "Smith",
    date_of_birth := none, date_of_death := none }

/-- A valid book form. -/
def validBookForm : BookForm :=
  { title := "New title", author := "a1", summary := "new sum",
    isbn := "isbn3", genre := GenreField.single "g1" }

/-- C3: when field validation fails, each create-POST and update-POST
handler leaves the store exactly as it was and re-renders its form with the
validation error messages; no save or update happens. -/
theorem invalid_form_rerendered_no_persistence (s : Store)
    (freshId paramsId name : String) (bf : BookForm) (af : AuthorForm)
    (instForm : BookInstanceForm)
    (hg : (genreValidationErrors name).isEmpty = false)
    (hb : (bookValidationErrors bf).isEmpty = false)
    (ha : (authorValidationErrors af).isEmpty = false)
    (hbi : (bookinstanceValidationErrors instForm).isEmpty = false) :
    genre_create_post s freshId name =
      (s, [Action.render "genre_form" (genreValidationErrors name)]) ∧
    genre_update_post s paramsId name =
      (s, [Action.render "genre_form" (genreValidationErrors name)]) ∧
    author_create_post s freshId af =
      (s, [Action.render "author_form" (authorValidationErrors af)]) ∧
    author_update_post s paramsId af =
      (s, [Action.render "author_form" (authorValidationErrors af)]) ∧
    book_create_post s freshId bf =
      (s, [Action.render "book_form" (bookValidationErrors bf)]) ∧
    book_update_post s paramsId bf =
      (s, [Action.render "book_form" (bookValidationErrors bf)]) ∧
    bookinstance_create_post s freshId instForm =
      (s, [Action.render "bookinstance_form" (bookinstanceValidationErrors instForm)]) ∧
    bookinstance_update_post s paramsId instForm =
      (s, [Action.render "bookinstance_form" (bookinstanceValidationErrors instForm)]) := by
  refine ⟨?_, ?_, ?_, ?_, ?_, ?_, ?_, ?_⟩ <;>
    simp [genre_create_post, genre_update_post, author_create_post,
          author_update_post, book_create_post, book_update_post,
          bookinstance_create_post, bookinstance_update_post,
          hg, hb, ha, hbi]

/-- C3 witness: a book with an empty title, an author with an empty first
name, a bookinstance with an empty book reference and a genre with an empty
name are all rejected, re-rendered with messages, and not persisted. -/
theorem invalid_form_rerendered_no_persistence_witness :
    (genreValidationErrors "").isEmpty = false ∧
    (bookValidationErrors emptyTitleBookForm).isEmpty = false ∧
    (authorValidationErrors emptyFirstNameAuthorForm).isEmpty = false ∧
    (bookinstanceValidationErrors emptyBookBookInstanceForm).isEmpty = false ∧
    (genre_create_post sampleStore "g9" "" =
      (sampleStore, [Action.render "genre_form" (genreValidationErrors "")]) ∧
     genre_update_post sampleStore "g1" "" =
      (sampleStore, [Action.render "genre_form" (genreValidationErrors "")]) ∧
     author_create_post sampleStore "a9" emptyFirstNameAuthorForm =
      (sampleStore, [Action.render "author_form" (authorValidationErrors emptyFirstNameAuthorForm)]) ∧
     author_update_post sampleStore "a1" emptyFirstNameAuthorForm =
      (sampleStore, [Action.render "author_form" (authorValidationErrors emptyFirstNameAuthorForm)]) ∧
     book_create_post sampleStore "b9" emptyTitleBookForm =
      (sampleStore, [Action.render "book_form" (bookValidationErrors emptyTitleBookForm)]) ∧
     book_update_post sampleStore "b1" emptyTitleBookForm =
      (sampleStore, [Action.render "book_form" (bookValidationErrors emptyTitleBookForm)]) ∧
     bookinstance_create_post sampleStore "i9" emptyBookBookInstanceForm =
      (sampleStore, [Action.render "bookinstance_form" (bookinstanceValidationErrors emptyBookBookInstanceForm)]) ∧
     bookinstance_update_post sampleStore "i1" emptyBookBookInstanceForm =
      (sampleStore, [Action.render "bookinstance_form" (bookinstanceValidationErrors emptyBookBookInstanceForm)])) :=
  ⟨by decide, by decide, by decide, by decide,
   invalid_form_rerendered_no_persistence sampleStore "g9" "g1" ""
     emptyTitleBookForm emptyFirstNameAuthorForm emptyBookBookInstanceForm
     (by decide) (by decide) (by decide) (by decide)⟩

/-- C4 counterexample: in `sampleStore` the book b1 references genre g2, yet
a delete-POST whose URL id is g1 and whose form-body id is g2 removes g2:
the dependent-book check reads the URL id while the removal reads the body
id, so a Genre can be removed while Books still reference it. -/
theorem genre_delete_post_removes_referenced_genre :
    (sampleStore.books.filter (fun b => "g2" ∈ b.genre)).length > 0 ∧
    (genre_delete_post sampleStore "g1" "g2").1.genres.find? (fun g => g.id = "g2") = none ∧
    (genre_delete_post sampleStore "g1" "g2").2 = [Action.redirect (some "/catalog/genres")] := by
  refine ⟨by decide, by decide, by decide⟩

/-- C4 amended: when the form-body id equals the URL id (the flow the delete
form produces), a delete-POST on a Genre referenced by at least one Book
re-renders the confirmation page and removes nothing, and when no Book
references it the Genre is removed and the response redirects to the genre
list. -/
theorem genre_delete_post_same_id_guarded (s : Store) (g : String) :
    ((s.books.filter (fun b => g ∈ b.genre)).length > 0 →
      genre_delete_post s g g = (s, [Action.render "genre_delete" []])) ∧
    ((s.books.filter (fun b => g ∈ b.genre)).length = 0 →
      genre_delete_post s g g =
        ({ s with genres := s.genres.filter (fun x => x.id ≠ g) },
         [Action.redirect (some "/catalog/genres")])) := by
  constructor <;> intro h <;> simp [genre_delete_post, h]

/-- C4 witness: deleting g2 (referenced by b1) through the matching-id flow
is rejected with the confirmation page; deleting g1 (referenced by no book)
removes it and redirects. -/
theorem genre_delete_post_same_id_guarded_witness :
    (sampleStore.books.filter (fun b => "g2" ∈ b.genre)).length > 0 ∧
    genre_delete_post sampleStore "g2" "g2" =
      (sampleStore, [Action.render "genre_delete" []]) ∧
    (sampleStore.books.filter (fun b => "g1" ∈ b.genre)).length = 0 ∧
    genre_delete_post sampleStore "g1" "g1" =
      ({ sampleStore with genres := sampleStore.genres.filter (fun x => x.id ≠ "g1") },
       [Action.redirect (some "/catalog/genres")]) :=
  ⟨by decide,
   (genre_delete_post_same_id_guarded sampleStore "g2").1 (by decide),
   by decide,
   (genre_delete_post_same_id_guarded sampleStore "g1").2 (by decide)⟩

/-- C5: an Author update-POST with valid fields leaves the store unchanged
and redirects to the JS undefined value: authorController.js line 200 calls
`findByIdAndUpdate` without `await`, so the update query never executes and
the `url` read on the query object is undefined. The stored record is never
overwritten, whatever the id. -/
theorem author_update_post_leaves_store_unchanged (s : Store)
    (paramsId : String) (f : AuthorForm)
    (hv : (authorValidationErrors f).isEmpty = true) :
    author_update_post s paramsId f = (s, [Action.redirect none]) := by
  simp [author_update_post, hv]

/-- C5 witness: a valid update of the stored author a1 changes nothing and
redirects to undefined. -/
theorem author_update_post_leaves_store_unchanged_witness :
    (authorValidationErrors validAuthorForm).isEmpty = true ∧
    author_update_post sampleStore "a1" validAuthorForm =
      (sampleStore, [Action.redirect none]) :=
  ⟨by decide,
   author_update_post_leaves_store_unchanged sampleStore "a1" validAuthorForm (by decide)⟩

/-- C6: a valid Book update-POST on an existing Book overwrites the stored
document with the sanitized submitted fields while keeping the id from the
URL parameter (both in the document and across the collection), and
redirects to that Book's detail page. -/
theorem book_update_post_preserves_id_overwrites_fields (s : Store)
    (paramsId : String) (f : BookForm) (b : Book)
    (hv : (bookValidationErrors f).isEmpty = true)
    (hb : s.books.find? (fun x => x.id = paramsId) = some b) :
    (book_update_post s paramsId f).1.books =
      s.books.map (fun x => if x.id = paramsId then bookFromForm paramsId f else x) ∧
    (bookFromForm paramsId f).id = paramsId ∧
    (book_update_post s paramsId f).1.books.map Book.id = s.books.map Book.id ∧
    (book_update_post s paramsId f).2 =
      [Action.redirect (some ("/catalog/book/" ++ paramsId))] := by
  have hbid : b.id = paramsId := by
    have hp := List.find?_some hb
    simpa using hp
  refine ⟨?_, rfl, ?_, ?_⟩
  · simp [book_update_post, hv, hb]
  · simp only [book_update_post, hv, Bool.not_true, if_false, hb,
      Bool.false_eq_true, List.map_map]
    apply List.map_congr_left
    intro x _
    by_cases hxi : x.id = paramsId
    · simp [hxi, bookFromForm]
    · simp [hxi]
  · simp [book_update_post, hv, hb, bookUrl, hbid]

/-- C6 witness: a valid update of the stored book b1 overwrites its fields
with the sanitized form values, keeps the collection ids unchanged and
redirects to the b1 detail page. -/
theorem book_update_post_preserves_id_overwrites_fields_witness :
    (bookValidationErrors validBookForm).isEmpty = true ∧
    sampleStore.books.find? (fun x => x.id = "b1") = some bookB1 ∧
    ((book_update_post sampleStore "b1" validBookForm).1.books =
       sampleStore.books.map (fun x => if x.id = "b1" then bookFromForm "b1" validBookForm else x) ∧
     (bookFromForm "b1" validBookForm).id = "b1" ∧
     (book_update_post sampleStore "b1" validBookForm).1.books.map Book.id =
       sampleStore.books.map Book.id ∧
     (book_update_post sampleStore "b1" validBookForm).2 =
       [Action.redirect (some ("/catalog/book/" ++ "b1"))]) :=
  ⟨by decide, by decide,
   book_update_post_preserves_id_overwrites_fields sampleStore "b1" validBookForm
     bookB1 (by decide) (by decide)⟩

/-- C7 counterexample: `book_list` hands the store order to the view with no
sort; on `sampleStore` the titles come out as B-then-A, which is not an
ascending order. -/
theorem book_list_not_sorted :
    (book_list sampleStore).map Book.title = ["B title", "A title"] ∧
    ¬ List.Pairwise (fun x y : String => x ≤ y) ((book_list sampleStore).map Book.title) := by
  refine ⟨rfl, fun h => ?_⟩
  have h1 : ("B title" : String) ≤ "A title" :=
    (List.pairwise_cons.mp h).1 "A title" (by simp [book_list, sampleStore, bookB1, bookB2])
  have h2 : ¬ ("B title" : String) ≤ "A title" := by
    rw [String.le_iff_toList_le]; decide
  exact h2 h1

instance : IsTotal Author (fun a b => a.family_name ≤ b.family_name) :=
  ⟨fun a b => le_total a.family_name b.family_name⟩

instance : IsTrans Author (fun a b => a.family_name ≤ b.family_name) :=
  ⟨fun _ _ _ hab hbc => le_trans hab hbc⟩

instance : IsTotal Genre (fun a b => a.name ≤ b.name) :=
  ⟨fun a b => le_total a.name b.name⟩

instance : IsTrans Genre (fun a b => a.name ≤ b.name) :=
  ⟨fun _ _ _ hab hbc => le_trans hab hbc⟩

/-- C7 amended: every list handler reads all stored entities of its type;
Authors come back sorted by family_name ascending and Genres by name
ascending, while Books and BookInstances come back exactly in store order
(no sort is applied). -/
theorem list_handlers_read_all_in_documented_order (s : Store) :
    (author_list s).Perm s.authors ∧
    List.Sorted (fun a b => a.family_name ≤ b.family_name) (author_list s) ∧
    (genre_list s).Perm s.genres ∧
    List.Sorted (fun a b => a.name ≤ b.name) (genre_list s) ∧
    book_list s = s.books ∧
    bookinstance_list s = s.bookinstances :=
  ⟨List.perm_insertionSort _ s.authors,
   List.sorted_insertionSort _ s.authors,
   List.perm_insertionSort _ s.genres,
   List.sorted_insertionSort _ s.genres,
   rfl, rfl⟩

/-- C8: a Genre create-POST with a valid name equal to an already-stored
Genre's (sanitized) name persists nothing and redirects to the existing
Genre's detail page: starting from a store without the name, creating it
twice leaves exactly one Genre with that name, the second request leaving
the store untouched. -/
theorem genre_create_post_idempotent_in_name (s : Store)
    (fid1 fid2 name : String)
    (hv : (genreValidationErrors name).isEmpty = true)
    (hnone : s.genres.find? (fun g => g.name = sanitize name) = none) :
    ((genre_create_post s fid1 name).1.genres.filter
        (fun g => g.name = sanitize name)).length = 1 ∧
    genre_create_post (genre_create_post s fid1 name).1 fid2 name =
      ((genre_create_post s fid1 name).1,
       [Action.redirect (some ("/catalog/genre/" ++ fid1))]) := by
  have hs1 : (genre_create_post s fid1 name).1 =
      { s with genres := s.genres ++ [{ id := fid1, name := sanitize name }] } := by
    simp [genre_create_post, hv, hnone]
  have hnil : s.genres.filter (fun g => g.name = sanitize name) = [] :=
    List.filter_eq_nil_iff.mpr (fun a ha => by
      simpa using List.find?_eq_none.mp hnone a ha)
  constructor
  · rw [hs1]
    simp [List.filter_append, hnil]
  · rw [hs1]
    simp [genre_create_post, hv, List.find?_append, hnone, genreUrl]

/-- C8 witness: creating the genre SciFi twice on top of `sampleStore`
stores it once; the second request changes nothing and redirects to the
first document's detail page. -/
theorem genre_create_post_idempotent_in_name_witness :
    (genreValidationErrors "SciFi").isEmpty = true ∧
    sampleStore.genres.find? (fun g => g.name = sanitize "SciFi") = none ∧
    (((genre_create_post sampleStore "g9" "SciFi").1.genres.filter
        (fun g => g.name = sanitize "SciFi")).length = 1 ∧
     genre_create_post (genre_create_post sampleStore "g9" "SciFi").1 "g8" "SciFi" =
       ((genre_create_post sampleStore "g9" "SciFi").1,
        [Action.redirect (some ("/catalog/genre/" ++ "g9"))])) :=
  ⟨by decide, by decide,
   genre_create_post_idempotent_in_name sampleStore "g9" "g8" "SciFi"
     (by decide) (by decide)⟩

end Library
